import Mathlib

/-!
Shallow embedding of `libnmap/process.py` (class `NmapProcess`).

The instance attributes of `NmapProcess` become the fields of a Lean
structure, and each method becomes a function that threads that structure
explicitly.  Interactions with the operating system (locating binaries on
PATH, spawning the child process, polling its exit status, the queues fed
by the two reader threads, the password database) are inputs to the
functions that consume them: the stdout reader thread's queue becomes the
list of chunks the consumption loop pulls, `poll()` becomes an
`Option Int` (`none` models Python `None`), and so on.  Python exceptions
are modelled with `Except`; since a raised exception leaves the object in
its partially-mutated state, the functions return the final object state
alongside the `Except` value.

The XML pull parser (`xml.dom.pulldom`, an external library) is modelled
abstractly: parsing a chunk yields a list of pull events — the prefix of
events the parser produced before either finishing or raising.  A chunk
that cannot be parsed at all yields the empty event list.
-/

namespace Libnmap

/-- A dynamically-typed Python value as stored in the snapshot fields:
`starttime`, `endtime`, `__progress` and `__etc` are initialised to the
integer `0` and later overwritten with attribute strings (and `__progress`
with the integer `100` on success). -/
inductive PyVal where
  | int (n : Int)
  | str (s : String)
  deriving DecidableEq, Repr

/-- The five lifecycle states.  The source assigns them as
`(DONE, READY, RUNNING, CANCELLED, FAILED) = range(5)` on the instance;
we model them as a closed enumeration together with their integer codes. -/
inductive LifecycleState where
  | DONE
  | READY
  | RUNNING
  | CANCELLED
  | FAILED
  deriving DecidableEq, Repr

/-- The integer each state is bound to by `range(5)` in `__init__`. -/
def LifecycleState.code : LifecycleState → Nat
  | .DONE => 0
  | .READY => 1
  | .RUNNING => 2
  | .CANCELLED => 3
  | .FAILED => 4

/-- Exceptions raised by the embedded methods. -/
inductive PyExc where
  | environmentError (code : Nat) (msg : String)
  | exception (msg : String)
  | osError
  | queueEmpty
  | keyError
  deriving DecidableEq, Repr

/-- `targets.replace(" ", "")`: removing every space character. -/
def pyReplaceSpace (s : String) : String :=
  String.mk (s.data.filter (fun c => !(c == ' ')))

/-- Python `str.split(',')`: split on every comma, keeping empty pieces
(`''.split(',') == ['']`). -/
def pySplitComma (s : String) : List String :=
  (s.data.splitOn ',').map String.mk

/-- Python `str.split()` with no argument: split on runs of whitespace,
dropping empty pieces. -/
def pySplitWs (s : String) : List String :=
  ((s.data.splitOnP (fun c => c.isWhitespace)).filter (fun l => l ≠ [])).map String.mk

/-- Python `sep.join(parts)`. -/
def pyJoin (sep : String) : List String → String
  | [] => ""
  | [t] => t
  | t :: ts => t ++ sep ++ pyJoin sep ts

/-- The `targets` argument of `__init__`: a string, a list, or any other
shape (which is rejected). -/
inductive TargetsArg where
  | str (s : String)
  | list (l : List String)
  | other
  deriving DecidableEq, Repr

/-- The `event_callback` argument of `__init__`: `None`, some value that
is not callable, or a callable. -/
inductive EventCallbackArg where
  | none
  | notCallable
  | callable
  deriving DecidableEq, Repr

/-- `event_callback and callable(event_callback)`: `None` is falsy and a
non-callable value fails the `callable` test, so only a callable sticks. -/
def EventCallbackArg.isCallable : EventCallbackArg → Bool
  | .callable => true
  | _ => false

/-- An XML element as seen by the pull parser: node name plus attributes. -/
structure XmlNode where
  nodeName : String
  attributes : List (String × String)
  deriving DecidableEq, Repr

/-- `xmlnode.attributes[key].value`; `none` models a `KeyError`. -/
def XmlNode.attr (n : XmlNode) (key : String) : Option String :=
  (n.attributes.lookup key)

/-- One event from the pull parser: `START_ELEMENT` with its node, or any
other event kind (`START_DOCUMENT`, `CHARACTERS`, `END_ELEMENT`, ...). -/
inductive PullEvent where
  | startElement (node : XmlNode)
  | other
  deriving DecidableEq, Repr

/-- The outcome of `pulldom.parseString(eventdata)` on one chunk: the
events produced before the parser finished or raised, and whether it
finished without raising.  A chunk that cannot be parsed at all yields
`events = []` and `parse_ok = false`. -/
structure ParseResult where
  events : List PullEvent
  parse_ok : Bool
  deriving DecidableEq, Repr

/-- One unit pulled from the stdout handoff queue: the raw line and the
outcome of parsing it. -/
structure Chunk where
  raw : String
  parsed : ParseResult
  deriving DecidableEq, Repr

/-- The mutable state of an `NmapProcess` instance (its attributes). -/
structure NmapProcess where
  nmap_rc : Option Int
  nmap_binary : String
  sudo_run : String
  nmap_targets : List String
  nmap_dynamic_options : String
  nmap_command_line : String
  /-- whether a callable `event_callback` is stored (`_nmap_event_callback`). -/
  nmap_event_callback : Bool
  state : LifecycleState
  starttime : PyVal
  endtime : PyVal
  progress : PyVal
  etc : PyVal
  elapsed : String
  summary : String
  nmap_version : String
  stdout : String
  stderr : String
  /-- pending contents of `__io_queue` / `__ioerr_queue`; both queues are
  created fresh (empty) by `_run_init`. -/
  io_queue : List String
  ioerr_queue : List String
  deriving DecidableEq, Repr

/-- `self.__nmap_fixed_options`. -/
def nmap_fixed_options : String := "-oX - -vvv --stats-every 2s"

/-- The `unsafe_opts` set of `__init__`. -/
def unsafe_opts : List String :=
  ["-oG", "-oN", "-iL", "-oA", "-oS", "-oX",
   "--iflist", "--resume", "--stylesheet", "--datadir"]

/-- `get_command_line`.  The source formats
`"%s %s %s %s %s".lstrip() % (...)`; `lstrip` is applied to the format
string itself, which has no leading whitespace, so the result is exactly
the five components joined by single spaces (with the targets themselves
joined by `" ".join`). -/
def get_command_line (p : NmapProcess) : String :=
  p.sudo_run ++ " " ++ p.nmap_binary ++ " " ++ nmap_fixed_options ++ " "
    ++ p.nmap_dynamic_options ++ " " ++ pyJoin " " p.nmap_targets

/-- `__init__`.  `nmap_path` is the result of `self._whereis("nmap")`
(`none` when nmap is not on PATH).  Note that `__init__` does not set
`nmap_version`, `__io_queue` or `__ioerr_queue` (only `_run_init` does);
we initialise them to their `_run_init` defaults. -/
def init (targets : TargetsArg) (options : String)
    (event_callback : EventCallbackArg) (safe_mode : Bool)
    (nmap_path : Option String) : Except PyExc NmapProcess :=
  match nmap_path with
  | Option.none => .error (.environmentError 1
      "nmap is not installed or could not be found in system path")
  | Option.some binpath =>
    let finish : List String → Except PyExc NmapProcess := fun tgts =>
      let optlist := pySplitWs options
      if safe_mode && optlist.any (fun o => unsafe_opts.contains o) then
        .error (.exception "unsafe options activated while safe_mode is set True")
      else
        let base : NmapProcess :=
          { nmap_rc := some 0
            nmap_binary := binpath
            sudo_run := ""
            nmap_targets := tgts
            nmap_dynamic_options := options
            nmap_command_line := ""
            nmap_event_callback := event_callback.isCallable
            state := .READY
            starttime := .int 0
            endtime := .int 0
            progress := .int 0
            etc := .int 0
            elapsed := ""
            summary := ""
            nmap_version := ""
            stdout := ""
            stderr := ""
            io_queue := []
            ioerr_queue := [] }
        .ok { base with nmap_command_line := get_command_line base }
    match targets with
    | .str s => finish (pySplitComma (pyReplaceSpace s))
    | .list l => finish l
    | .other => .error (.exception
        "Supplied target list should be either a string of a list")

/-- `_run_init`: reset of all per-invocation state, executed at the start
of every `run()` call. -/
def run_init (p : NmapProcess) : NmapProcess :=
  let p1 : NmapProcess :=
    { p with
      nmap_rc := some (-1)
      state := .READY
      progress := .int 0
      etc := .int 0
      starttime := .int 0
      endtime := .int 0
      elapsed := ""
      summary := ""
      nmap_version := ""
      io_queue := []
      ioerr_queue := []
      stdout := ""
      stderr := "" }
  { p1 with nmap_command_line := get_command_line p1 }

/-- `__process_event`, processing the events the pull parser yields from
one chunk.  `rval` accumulates whether a known marker was recognised.  In
the source an absent attribute raises `KeyError`, which the blanket
`except` swallows: processing of the remaining events stops and the value
of `rval` accumulated so far is returned, together with whatever field
assignments already executed. -/
def process_events : List PullEvent → Bool → NmapProcess → Bool × NmapProcess
  | [], rval, p => (rval, p)
  | .other :: rest, rval, p => process_events rest rval p
  | .startElement n :: rest, rval, p =>
    if n.nodeName = "taskprogress" && !n.attributes.isEmpty then
      -- both lookups happen before either assignment
      match n.attr "percent", n.attr "etc" with
      | some pc, some et =>
          process_events rest true { p with progress := .str pc, etc := .str et }
      | _, _ => (rval, p)
    else if n.nodeName = "nmaprun" && !n.attributes.isEmpty then
      -- `starttime` is assigned before `version` is looked up
      match n.attr "start" with
      | Option.none => (rval, p)
      | some st =>
        let p := { p with starttime := .str st }
        match n.attr "version" with
        | Option.none => (rval, p)
        | some v => process_events rest true { p with nmap_version := v }
    else if n.nodeName = "finished" && !n.attributes.isEmpty then
      -- `time`, `elapsed`, `summary` are looked up and assigned in order
      match n.attr "time" with
      | Option.none => (rval, p)
      | some tm =>
        let p := { p with endtime := .str tm }
        match n.attr "elapsed" with
        | Option.none => (rval, p)
        | some el =>
          let p := { p with elapsed := el }
          match n.attr "summary" with
          | Option.none => (rval, p)
          | some sm => process_events rest true { p with summary := sm }
    else
      process_events rest rval p

/-- `__process_event` on one chunk: run the parser's events through
`process_events` starting from `rval = False`.  The blanket
`try ... except: pass` means a parse failure after the produced events
(including immediately, for an unparseable chunk) is swallowed; the
function always returns normally. -/
def process_event (pr : ParseResult) (p : NmapProcess) : Bool × NmapProcess :=
  process_events pr.events false p

/-- The pure recognition verdict of `__process_event` (its return value),
which does not depend on the snapshot state the chunk is processed in. -/
def event_known_events : List PullEvent → Bool → Bool
  | [], rval => rval
  | .other :: rest, rval => event_known_events rest rval
  | .startElement n :: rest, rval =>
    if n.nodeName = "taskprogress" && !n.attributes.isEmpty then
      match n.attr "percent", n.attr "etc" with
      | some _, some _ => event_known_events rest true
      | _, _ => rval
    else if n.nodeName = "nmaprun" && !n.attributes.isEmpty then
      match n.attr "start" with
      | Option.none => rval
      | some _ =>
        match n.attr "version" with
        | Option.none => rval
        | some _ => event_known_events rest true
    else if n.nodeName = "finished" && !n.attributes.isEmpty then
      match n.attr "time" with
      | Option.none => rval
      | some _ =>
        match n.attr "elapsed" with
        | Option.none => rval
        | some _ =>
          match n.attr "summary" with
          | Option.none => rval
          | some _ => event_known_events rest true
    else
      event_known_events rest rval

/-- Whether `__process_event` reports a recognised marker for a chunk. -/
def event_known (pr : ParseResult) : Bool :=
  event_known_events pr.events false

/-- The body of the consumption loop of `__wait`, applied to the sequence
of units pulled from the stdout queue.  For each unit: `__process_event`
runs, then, if a callable callback is stored and a marker was recognised,
the callback is invoked with `(self, thread_stream)` — recorded in the
returned trace as the object state and the raw chunk at that moment —
and finally the raw unit is appended to `stdout`. -/
def wait_loop : List Chunk → NmapProcess → NmapProcess × List (NmapProcess × String)
  | [], p => (p, [])
  | c :: cs, p =>
    let ep := process_event c.parsed p
    let inv : List (NmapProcess × String) :=
      if ep.2.nmap_event_callback && ep.1 then [(ep.2, c.raw)] else []
    let p2 := { ep.2 with stdout := ep.2.stdout ++ c.raw }
    let r := wait_loop cs p2
    (r.1, inv ++ r.2)

/-- `__wait`: the consumption loop followed by the final exit-status
resolution.  `poll_final` is the value of `self.__nmap_proc.poll()` after
the loop exits; `stderr_read` is the outcome of
`self.__ioerr_queue.get(timeout=2)` (`none` models the `Queue.Empty`
timeout, which the source does not catch, so it propagates). -/
def wait (chunks : List Chunk) (poll_final : Option Int)
    (stderr_read : Option String) (p : NmapProcess) :
    Except PyExc (Option Int) × NmapProcess × List (NmapProcess × String) :=
  let lp := wait_loop chunks p
  let p := { lp.1 with nmap_rc := poll_final }
  match poll_final with
  | Option.none => (.ok Option.none, { p with state := .CANCELLED }, lp.2)
  | some rc =>
    if rc = 0 then
      (.ok (some rc), { p with state := .DONE, progress := .int 100 }, lp.2)
    else
      let p := { p with state := .FAILED }
      match stderr_read with
      | some s => (.ok (some rc), { p with stderr := s }, lp.2)
      | Option.none => (.error .queueEmpty, p, lp.2)

/-- The environment one `run()` invocation interacts with: whether
`subprocess.Popen` succeeds (`OSError` otherwise), the units the stdout
reader thread delivers, the final `poll()` value, and the single
`__ioerr_queue.get(timeout=2)` outcome. -/
structure RunEnv where
  spawn_ok : Bool
  chunks : List Chunk
  poll_final : Option Int
  stderr_read : Option String
  deriving DecidableEq, Repr

/-- `run()`: `_run_init`, spawn (on `OSError` the state is forced to
`FAILED` and the exception re-raised), state to `RUNNING`, then `__wait`. -/
def run (env : RunEnv) (p : NmapProcess) :
    Except PyExc (Option Int) × NmapProcess × List (NmapProcess × String) :=
  let p := run_init p
  if env.spawn_ok then
    wait env.chunks env.poll_final env.stderr_read { p with state := .RUNNING }
  else
    (.error .osError, { p with state := .FAILED }, [])

/-- `sudo_run(run_as)`.  `pw_exists` is whether `pwd.getpwnam` finds the
user (`KeyError` otherwise); `sudo_path` is `self._whereis("sudo")`.
`run_as.split().pop()` on a blank string raises `IndexError`, modelled
here as a generic exception.  The prefix is cleared only on the straight
line after `run()` returns — there is no `try/finally`. -/
def sudo_run (run_as : String) (pw_exists : Bool) (sudo_path : Option String)
    (env : RunEnv) (p : NmapProcess) :
    Except PyExc (Option Int) × NmapProcess × List (NmapProcess × String) :=
  match (pySplitWs run_as).getLast? with
  | Option.none => (.error (.exception "IndexError: pop from empty list"), p, [])
  | some sudo_user =>
    if !pw_exists then (.error .keyError, p, [])
    else
      match sudo_path with
      | Option.none => (.error (.environmentError 2
          ("sudo is not installed or could not be found in system path: "
            ++ "cannot run nmap with sudo")), p, [])
      | some sp =>
        let p := { p with sudo_run := sp ++ " -u " ++ sudo_user }
        match run env p with
        | (.ok rc, p2, tr) => (.ok rc, { p2 with sudo_run := "" }, tr)
        | (.error e, p2, tr) => (.error e, p2, tr)

/-- The space-separated tokens of a string (Python `str.split(' ')`),
used to read the targets back off the command line. -/
def space_tokens (s : String) : List String :=
  (s.data.splitOn ' ').map String.mk

/-- A concrete `NmapProcess` state, as produced by
`NmapProcess("127.0.0.1", "-sT")` with nmap at `/usr/bin/nmap`. -/
def sample : NmapProcess :=
  { nmap_rc := some 0
    nmap_binary := "/usr/bin/nmap"
    sudo_run := ""
    nmap_targets := ["127.0.0.1"]
    nmap_dynamic_options := "-sT"
    nmap_command_line := " /usr/bin/nmap -oX - -vvv --stats-every 2s -sT 127.0.0.1"
    nmap_event_callback := false
    state := .READY
    starttime := .int 0
    endtime := .int 0
    progress := .int 0
    etc := .int 0
    elapsed := ""
    summary := ""
    nmap_version := ""
    stdout := ""
    stderr := ""
    io_queue := []
    ioerr_queue := [] }

/-- `sample` with a callable observer callback stored. -/
def sample_cb : NmapProcess := { sample with nmap_event_callback := true }

/-- The state `NmapProcess("a, b", "-sT")` constructs (two targets given
as one comma-delimited string). -/
def sample2 : NmapProcess :=
  { nmap_rc := some 0
    nmap_binary := "/usr/bin/nmap"
    sudo_run := ""
    nmap_targets := ["a", "b"]
    nmap_dynamic_options := "-sT"
    nmap_command_line := " /usr/bin/nmap -oX - -vvv --stats-every 2s -sT a b"
    nmap_event_callback := false
    state := .READY
    starttime := .int 0
    endtime := .int 0
    progress := .int 0
    etc := .int 0
    elapsed := ""
    summary := ""
    nmap_version := ""
    stdout := ""
    stderr := ""
    io_queue := []
    ioerr_queue := [] }

/-- A chunk carrying a recognisable progress marker. -/
def progress_node : XmlNode :=
  { nodeName := "taskprogress"
    attributes := [("task", "SYN Stealth Scan"), ("percent", "42"), ("etc", "10")] }

def chunk_progress : Chunk :=
  { raw := "<taskprogress task=\"SYN Stealth Scan\" percent=\"42\" etc=\"10\"/>\n"
    parsed := { events := [.startElement progress_node], parse_ok := true } }

/-- A truncated chunk the parser raises on before yielding any event. -/
def chunk_garbage : Chunk :=
  { raw := "<taskp", parsed := { events := [], parse_ok := false } }

/-- `is_running`. -/
def is_running (p : NmapProcess) : Bool := p.state = .RUNNING

/-- `has_terminated`. -/
def has_terminated (p : NmapProcess) : Bool :=
  p.state = .DONE || p.state = .FAILED || p.state = .CANCELLED

/-- `has_failed`. -/
def has_failed (p : NmapProcess) : Bool := p.state = .FAILED

/-- `is_successful`. -/
def is_successful (p : NmapProcess) : Bool := p.state = .DONE

/-- `__process_event` returns the same verdict in any snapshot state, and
never touches the callback slot, the stderr buffer or the sudo prefix. -/
theorem process_events_spec (evs : List PullEvent) :
    ∀ (rval : Bool) (p : NmapProcess),
      (process_events evs rval p).1 = event_known_events evs rval ∧
      (process_events evs rval p).2.nmap_event_callback = p.nmap_event_callback ∧
      (process_events evs rval p).2.stderr = p.stderr ∧
      (process_events evs rval p).2.sudo_run = p.sudo_run := by
  induction evs with
  | nil => intro rval p; simp [process_events, event_known_events]
  | cons e rest ih =>
    intro rval p
    cases e with
    | other => simpa [process_events, event_known_events] using ih rval p
    | startElement n =>
      by_cases h1 : (n.nodeName = "taskprogress" && !n.attributes.isEmpty) = true
      · rcases hp : n.attr "percent" with _ | pc <;> rcases he : n.attr "etc" with _ | et <;>
          simp [process_events, event_known_events, h1, hp, he, ih]
      · by_cases h2 : (n.nodeName = "nmaprun" && !n.attributes.isEmpty) = true
        · rcases hs : n.attr "start" with _ | st <;> rcases hv : n.attr "version" with _ | v <;>
            simp [process_events, event_known_events, h1, h2, hs, hv, ih]
        · by_cases h3 : (n.nodeName = "finished" && !n.attributes.isEmpty) = true
          · rcases ht : n.attr "time" with _ | tm <;>
              rcases hl : n.attr "elapsed" with _ | el <;>
              rcases hm : n.attr "summary" with _ | sm <;>
              simp [process_events, event_known_events, h1, h2, h3, ht, hl, hm, ih]
          · simp [process_events, event_known_events, h1, h2, h3, ih]

theorem process_event_fst (pr : ParseResult) (p : NmapProcess) :
    (process_event pr p).1 = event_known pr :=
  (process_events_spec pr.events false p).1

theorem process_event_callback (pr : ParseResult) (p : NmapProcess) :
    (process_event pr p).2.nmap_event_callback = p.nmap_event_callback :=
  (process_events_spec pr.events false p).2.1

/-- The consumption loop never touches the callback slot, the stderr
buffer or the sudo prefix. -/
theorem wait_loop_preserve (chunks : List Chunk) :
    ∀ p : NmapProcess,
      (wait_loop chunks p).1.nmap_event_callback = p.nmap_event_callback ∧
      (wait_loop chunks p).1.stderr = p.stderr ∧
      (wait_loop chunks p).1.sudo_run = p.sudo_run := by
  induction chunks with
  | nil => intro p; simp [wait_loop]
  | cons c cs ih =>
    intro p
    have hs := process_events_spec c.parsed.events false p
    simp only [wait_loop]
    refine ⟨?_, ?_, ?_⟩ <;>
      simp [(ih _).1, (ih _).2.1, (ih _).2.2, process_event, hs.2.1, hs.2.2.1, hs.2.2.2]

/-- With no callable callback stored, the loop invokes the observer on no
chunk at all. -/
theorem wait_loop_trace_none (chunks : List Chunk) :
    ∀ p : NmapProcess, p.nmap_event_callback = false →
      (wait_loop chunks p).2 = [] := by
  induction chunks with
  | nil => intro p _; simp [wait_loop]
  | cons c cs ih =>
    intro p hp
    have hcb := process_event_callback c.parsed p
    rw [hp] at hcb
    simp only [wait_loop, hcb, Bool.false_and, if_false, List.nil_append]
    exact ih _ (by simp [hcb])

/-- With a callable callback stored, the raw chunks passed to the observer
(second call argument) are exactly the consumed chunks on which a marker
was recognised, in order. -/
theorem wait_loop_trace_some (chunks : List Chunk) :
    ∀ p : NmapProcess, p.nmap_event_callback = true →
      ((wait_loop chunks p).2).map Prod.snd =
        (chunks.filter (fun c => event_known c.parsed)).map Chunk.raw := by
  induction chunks with
  | nil => intro p _; simp [wait_loop]
  | cons c cs ih =>
    intro p hp
    have hcb := process_event_callback c.parsed p
    have hfst := process_event_fst c.parsed p
    rw [hp] at hcb
    by_cases he : event_known c.parsed = true
    · simp only [wait_loop, hcb, hfst, he, Bool.true_and, if_true, List.filter_cons,
        List.map_cons, List.map_append, List.map_cons, List.map_nil, List.singleton_append]
      rw [ih _ (by simp [hcb])]
    · simp only [Bool.not_eq_true] at he
      simp only [wait_loop, hcb, hfst, he, Bool.true_and, Bool.false_eq_true, if_false,
        List.filter_cons, List.nil_append]
      rw [ih _ (by simp [hcb])]

/-- The characters of `" ".join(ts)` are the character lists of the
targets interleaved with single spaces. -/
theorem pyJoin_data : ∀ ts : List String,
    (pyJoin " " ts).data = [' '].intercalate (ts.map String.data)
  | [] => by simp [pyJoin, List.intercalate]
  | [t] => by simp [pyJoin, List.intercalate]
  | t :: t2 :: rest => by
    have ih := pyJoin_data (t2 :: rest)
    show (t ++ " " ++ pyJoin " " (t2 :: rest)).data = _
    simp only [String.data_append, ih, List.map_cons, List.intercalate,
      List.intersperse_cons_cons, List.flatten_cons]
    simp

theorem map_mk_map_data (ts : List String) :
    (ts.map String.data).map String.mk = ts := by
  induction ts with
  | nil => rfl
  | cons t rest ih => simp [ih]

/-- Reading the space-joined target segment back as space-separated tokens
recovers exactly the original target list, in order, provided no target is
empty or contains a space. -/
theorem space_tokens_pyJoin (ts : List String) (h1 : ts ≠ [])
    (h2 : ∀ t ∈ ts, ' ' ∉ t.data) :
    space_tokens (pyJoin " " ts) = ts := by
  unfold space_tokens
  rw [pyJoin_data, List.splitOn_intercalate]
  · exact map_mk_map_data ts
  · intro l hl
    rcases List.mem_map.mp hl with ⟨t, ht, rfl⟩
    exact h2 t ht
  · simpa using h1

/-- Python `split(',')` never returns an empty list. -/
theorem pySplitComma_ne_nil (s : String) : pySplitComma s ≠ [] := by
  intro h
  have := List.splitOnP_ne_nil (fun c => c == ',') s.data
  simp only [pySplitComma, List.splitOn, List.map_eq_nil_iff] at h
  exact this h

/-- `run()` never modifies the sudo prefix. -/
theorem run_sudo_run (env : RunEnv) (p : NmapProcess) :
    (run env p).2.1.sudo_run = p.sudo_run := by
  rcases env with ⟨sp, chunks, poll, serr⟩
  have hw := (wait_loop_preserve chunks { run_init p with state := .RUNNING }).2.2
  cases sp
  · simp [run, run_init]
  · rcases poll with _ | rc
    · simp only [run, wait, if_true]
      simpa [run_init] using hw
    · rcases eq_or_ne rc 0 with rfl | h0
      · simp only [run, wait, if_true]
        simpa [run_init] using hw
      · rcases serr with _ | s <;>
        · simp only [run, wait, if_true, h0, if_false]
          simpa [run_init, h0] using hw

/-- Claim C1: after the consumption loop of `run()` exits, the final exit
status is classified into exactly one terminal state: an indeterminate
status (`poll()` returns `None`) gives CANCELLED; status `0` gives DONE
with the progress field forced to `100` (whatever chunks, if any, were
consumed); any other status gives FAILED. -/
theorem run_final_state_classification (env : RunEnv) (p : NmapProcess)
    (hs : env.spawn_ok = true) :
    (env.poll_final = Option.none → (run env p).2.1.state = .CANCELLED) ∧
    (env.poll_final = some 0 →
      (run env p).2.1.state = .DONE ∧ (run env p).2.1.progress = .int 100) ∧
    (∀ rc : Int, env.poll_final = some rc → rc ≠ 0 →
      (run env p).2.1.state = .FAILED) := by
  rcases env with ⟨sp, chunks, poll, serr⟩
  subst hs
  refine ⟨?_, ?_, ?_⟩
  · rintro rfl; simp [run, wait]
  · rintro rfl; constructor <;> simp [run, wait]
  · rintro rc rfl h0
    rcases serr with _ | s <;> simp [run, wait, h0]

theorem run_final_state_classification_witness :
    ((run { spawn_ok := true, chunks := [], poll_final := Option.none,
            stderr_read := Option.none } sample).2.1.state = .CANCELLED) ∧
    ((run { spawn_ok := true, chunks := [], poll_final := some 0,
            stderr_read := Option.none } sample).2.1.state = .DONE ∧
     (run { spawn_ok := true, chunks := [], poll_final := some 0,
            stderr_read := Option.none } sample).2.1.progress = .int 100) ∧
    ((run { spawn_ok := true, chunks := [], poll_final := some 1,
            stderr_read := some "e" } sample).2.1.state = .FAILED) :=
  ⟨(run_final_state_classification _ sample rfl).1 rfl,
   (run_final_state_classification _ sample rfl).2.1 rfl,
   (run_final_state_classification _ sample rfl).2.2 1 rfl (by decide)⟩

/-- Claim C2: a chunk that is malformed or truncated so badly that the
pull parser yields no event at all makes `__process_event` report "no
marker recognised" and leave the whole object state — in particular every
progress-snapshot field — unchanged; the blanket `except` means no
exception escapes (the embedded function is total). -/
theorem process_event_unparseable (pr : ParseResult) (p : NmapProcess)
    (h : pr.events = []) : process_event pr p = (false, p) := by
  simp [process_event, h, process_events]

theorem process_event_unparseable_witness :
    chunk_garbage.parsed.events = [] ∧
    process_event chunk_garbage.parsed sample = (false, sample) :=
  ⟨rfl, process_event_unparseable _ _ rfl⟩

/-- Claim C3 counterexample: child exits with status 1 and nothing arrives
on the stderr queue within the bounded wait — `run()` does not return
normally; the uncaught `Queue.Empty` raised by
`self.__ioerr_queue.get(timeout=2)` propagates to the caller. -/
theorem run_stderr_timeout_raises :
    (run { spawn_ok := true, chunks := [], poll_final := some 1,
           stderr_read := Option.none } sample).1 = .error .queueEmpty := by
  rfl

/-- Claim C3 (amended): when the child exits with a non-zero status the
state becomes FAILED; if a line arrives on the stderr queue within the
bounded wait, `run()` returns the status as a normal result with that
line in the stderr buffer; if nothing arrives within the wait, the stderr
buffer stays empty but the queue-empty exception propagates out of
`run()` instead of a normal return. -/
theorem run_failed_exit (env : RunEnv) (p : NmapProcess) (rc : Int)
    (hs : env.spawn_ok = true) (hp : env.poll_final = some rc) (h0 : rc ≠ 0) :
    (run env p).2.1.state = .FAILED ∧
    (∀ s, env.stderr_read = some s →
      (run env p).1 = .ok (some rc) ∧ (run env p).2.1.stderr = s) ∧
    (env.stderr_read = Option.none →
      (run env p).1 = .error .queueEmpty ∧ (run env p).2.1.stderr = "") := by
  rcases env with ⟨sp, chunks, poll, serr⟩
  subst hs
  subst hp
  have hw := (wait_loop_preserve chunks { run_init p with state := .RUNNING }).2.1
  refine ⟨?_, ?_, ?_⟩
  · rcases serr with _ | s <;> simp [run, wait, h0]
  · rintro s rfl
    constructor <;> simp [run, wait, h0]
  · rintro rfl
    refine ⟨by simp [run, wait, h0], ?_⟩
    simp only [run, wait, h0, if_true]
    simpa [run_init, h0] using hw

theorem run_failed_exit_witness :
    ((run { spawn_ok := true, chunks := [], poll_final := some 1,
            stderr_read := some "boom" } sample).2.1.state = .FAILED ∧
     (run { spawn_ok := true, chunks := [], poll_final := some 1,
            stderr_read := some "boom" } sample).1 = .ok (some 1) ∧
     (run { spawn_ok := true, chunks := [], poll_final := some 1,
            stderr_read := some "boom" } sample).2.1.stderr = "boom") ∧
    ((run { spawn_ok := true, chunks := [], poll_final := some 1,
            stderr_read := Option.none } sample).1 = .error .queueEmpty ∧
     (run { spawn_ok := true, chunks := [], poll_final := some 1,
            stderr_read := Option.none } sample).2.1.stderr = "") :=
  ⟨⟨(run_failed_exit _ sample 1 rfl rfl (by decide)).1,
    ((run_failed_exit _ sample 1 rfl rfl (by decide)).2.1 "boom" rfl).1,
    ((run_failed_exit _ sample 1 rfl rfl (by decide)).2.1 "boom" rfl).2⟩,
   ⟨((run_failed_exit _ sample 1 rfl rfl (by decide)).2.2 rfl).1,
    ((run_failed_exit _ sample 1 rfl rfl (by decide)).2.2 rfl).2⟩⟩

/-- `_run_init` depends only on the configuration fields that survive a
run (binary path, sudo prefix, targets, options, callback slot). -/
theorem run_init_config (p q : NmapProcess)
    (hb : q.nmap_binary = p.nmap_binary) (hs : q.sudo_run = p.sudo_run)
    (ht : q.nmap_targets = p.nmap_targets)
    (ho : q.nmap_dynamic_options = p.nmap_dynamic_options)
    (hc : q.nmap_event_callback = p.nmap_event_callback) :
    run_init q = run_init p := by
  cases p; cases q
  simp_all [run_init, get_command_line]

/-- Claim C4: every `run()` call first resets all per-invocation state to
its defaults — state READY, progress/etc/starttime/endtime 0, elapsed,
summary, nmap version, stdout and stderr empty, fresh (empty) handoff
queues — so two runners that agree on their configuration behave
identically under `run()` no matter what stale state (stdout, timestamps,
progress) a prior run left behind. -/
theorem run_resets_state (p : NmapProcess) :
    (run_init p).state = .READY ∧ (run_init p).progress = .int 0 ∧
    (run_init p).etc = .int 0 ∧ (run_init p).starttime = .int 0 ∧
    (run_init p).endtime = .int 0 ∧ (run_init p).elapsed = "" ∧
    (run_init p).summary = "" ∧ (run_init p).nmap_version = "" ∧
    (run_init p).stdout = "" ∧ (run_init p).stderr = "" ∧
    (run_init p).io_queue = [] ∧ (run_init p).ioerr_queue = [] ∧
    ∀ q : NmapProcess, q.nmap_binary = p.nmap_binary → q.sudo_run = p.sudo_run →
      q.nmap_targets = p.nmap_targets →
      q.nmap_dynamic_options = p.nmap_dynamic_options →
      q.nmap_event_callback = p.nmap_event_callback →
      ∀ env : RunEnv, run env q = run env p := by
  refine ⟨rfl, rfl, rfl, rfl, rfl, rfl, rfl, rfl, rfl, rfl, rfl, rfl, ?_⟩
  intro q hb hs ht ho hc env
  unfold run
  rw [run_init_config p q hb hs ht ho hc]

theorem run_resets_state_witness :
    run { spawn_ok := true, chunks := [chunk_progress], poll_final := some 0,
          stderr_read := Option.none }
        { sample with stdout := "stale output", starttime := .str "1403100000",
                      progress := .str "55", state := .DONE } =
      run { spawn_ok := true, chunks := [chunk_progress], poll_final := some 0,
            stderr_read := Option.none } sample :=
  (run_resets_state sample).2.2.2.2.2.2.2.2.2.2.2.2
    { sample with stdout := "stale output", starttime := .str "1403100000",
                  progress := .str "55", state := .DONE }
    rfl rfl rfl rfl rfl _

/-- The trace of observer invocations of `__wait` is exactly the trace of
its consumption loop (the post-loop status resolution invokes nothing). -/
theorem wait_trace (chunks : List Chunk) (poll : Option Int)
    (serr : Option String) (p : NmapProcess) :
    (wait chunks poll serr p).2.2 = (wait_loop chunks p).2 := by
  rcases poll with _ | rc
  · rfl
  · rcases eq_or_ne rc 0 with rfl | h0
    · rfl
    · rcases serr with _ | s <;> simp [wait, h0]

/-- Inversion of a successful `__init__`: what every constructed object
looks like in terms of the constructor arguments. -/
theorem init_ok_inversion (input : TargetsArg) (options : String)
    (cb : EventCallbackArg) (sm : Bool) (path : Option String)
    (p : NmapProcess) (h : init input options cb sm path = .ok p) :
    (∃ bp, path = some bp ∧ p.nmap_binary = bp) ∧
    p.sudo_run = "" ∧ p.nmap_dynamic_options = options ∧
    p.nmap_event_callback = cb.isCallable ∧
    (∀ s, input = .str s → p.nmap_targets = pySplitComma (pyReplaceSpace s)) ∧
    (∀ l, input = .list l → p.nmap_targets = l) ∧
    input ≠ .other := by
  rcases path with _ | bp
  · exact absurd h (by simp [init])
  rcases input with s | l | _
  · simp only [init] at h
    split at h
    · exact absurd h (by simp)
    · injection h with h
      subst h
      refine ⟨⟨bp, rfl, rfl⟩, rfl, rfl, rfl, ?_, ?_, by simp⟩
      · intro s2 hs2
        cases hs2
        rfl
      · intro l2 hl2
        cases hl2
  · simp only [init] at h
    split at h
    · exact absurd h (by simp)
    · injection h with h
      subst h
      refine ⟨⟨bp, rfl, rfl⟩, rfl, rfl, rfl, ?_, ?_, by simp⟩
      · intro s2 hs2
        cases hs2
      · intro l2 hl2
        cases hl2
        rfl
  · exact absurd h (by simp [init])

/-- Claim C5: for every valid target input — a comma-delimited string or a
list of targets — the command line is the elevation prefix, the executable
path, the fixed output/verbosity flags, the user option string, and the
targets joined by single spaces, in that order; reading the target segment
back as space-separated tokens recovers every target exactly once, in the
original input order. -/
theorem get_command_line_shape (input : TargetsArg) (options : String)
    (cb : EventCallbackArg) (sm : Bool) (path : Option String)
    (p : NmapProcess) (h : init input options cb sm path = .ok p) :
    get_command_line p =
      p.sudo_run ++ " " ++ p.nmap_binary ++ " " ++ nmap_fixed_options ++ " "
        ++ options ++ " " ++ pyJoin " " p.nmap_targets ∧
    (∀ s, input = .str s → p.nmap_targets = pySplitComma (pyReplaceSpace s)) ∧
    (∀ l, input = .list l → p.nmap_targets = l) ∧
    (p.nmap_targets ≠ [] → (∀ t ∈ p.nmap_targets, ' ' ∉ t.data) →
      space_tokens (pyJoin " " p.nmap_targets) = p.nmap_targets) := by
  obtain ⟨⟨bp, hbp, hb⟩, hsu, ho, hcb, hstr, hlist, hoth⟩ :=
    init_ok_inversion input options cb sm path p h
  refine ⟨?_, hstr, hlist, fun h1 h2 => space_tokens_pyJoin _ h1 h2⟩
  simp [get_command_line, ho]

theorem get_command_line_shape_witness :
    get_command_line sample2 =
      sample2.sudo_run ++ " " ++ sample2.nmap_binary ++ " " ++
        nmap_fixed_options ++ " " ++ "-sT" ++ " " ++
        pyJoin " " sample2.nmap_targets ∧
    sample2.nmap_targets = pySplitComma (pyReplaceSpace "a, b") ∧
    space_tokens (pyJoin " " sample2.nmap_targets) = sample2.nmap_targets :=
  have H := get_command_line_shape (.str "a, b") "-sT" .none true
    (some "/usr/bin/nmap") sample2 rfl
  ⟨H.1, H.2.1 "a, b" rfl, H.2.2.2 (by decide) (by decide)⟩

/-- Claim C6: any option string containing a token from the unsafe set
makes construction fail with the configuration error when safety mode is
on, while the very same option string is accepted when safety mode is off
(for any valid target input, no error is raised for the options). -/
theorem init_safe_mode (options : String) (cb : EventCallbackArg)
    (input : TargetsArg) (bp : String) (hin : input ≠ TargetsArg.other)
    (hopt : (pySplitWs options).any (fun o => unsafe_opts.contains o) = true) :
    init input options cb true (some bp) =
      .error (.exception "unsafe options activated while safe_mode is set True") ∧
    ∃ q, init input options cb false (some bp) = .ok q := by
  have hopt2 : ∃ x ∈ pySplitWs options, x ∈ unsafe_opts := by
    simpa [List.any_eq_true] using hopt
  rcases input with s | l | _
  · exact ⟨by simp only [init]; simp [hopt2], ⟨_, rfl⟩⟩
  · exact ⟨by simp only [init]; simp [hopt2], ⟨_, rfl⟩⟩
  · exact absurd rfl hin

theorem init_safe_mode_witness :
    init (.str "a") "-sT -oN out" .none true (some "/usr/bin/nmap") =
      .error (.exception "unsafe options activated while safe_mode is set True") ∧
    ∃ q, init (.str "a") "-sT -oN out" .none false (some "/usr/bin/nmap") = .ok q :=
  init_safe_mode "-sT -oN out" .none (.str "a") "/usr/bin/nmap"
    (by decide) (by decide)

/-- Claim C7: with an observer callback registered, the consumption loop
invokes it exactly once per consumed chunk on which a marker was
recognised — with the runner object as first argument (the trace records
the object state at the call) and the raw chunk text as second — and zero
times for chunks on which no marker was recognised: the second call
arguments are exactly the recognised chunks' raw texts, in consumption
order, both for the loop itself and for a full `run()`. -/
theorem callback_invocation_trace (chunks : List Chunk) (p : NmapProcess)
    (h : p.nmap_event_callback = true) :
    ((wait_loop chunks p).2).map Prod.snd =
      (chunks.filter (fun c => event_known c.parsed)).map Chunk.raw ∧
    (∀ env : RunEnv, env.spawn_ok = true → env.chunks = chunks →
      ((run env p).2.2).map Prod.snd =
        (chunks.filter (fun c => event_known c.parsed)).map Chunk.raw) := by
  refine ⟨wait_loop_trace_some chunks p h, ?_⟩
  rintro ⟨sp, cs, poll, serr⟩ hsp rfl
  subst hsp
  simp only [run, if_true, wait_trace]
  exact wait_loop_trace_some _ _ (by simpa [run_init] using h)

theorem callback_invocation_trace_witness :
    ((wait_loop [chunk_progress, chunk_garbage] sample_cb).2).map Prod.snd =
      [chunk_progress.raw] ∧
    ((run { spawn_ok := true, chunks := [chunk_progress, chunk_garbage],
            poll_final := some 0, stderr_read := Option.none } sample_cb).2.2).map
        Prod.snd = [chunk_progress.raw] :=
  have H := callback_invocation_trace [chunk_progress, chunk_garbage] sample_cb rfl
  ⟨H.1.trans (by decide), (H.2 _ rfl rfl).trans (by decide)⟩

/-- Claim C8 counterexample: when `run()` raises (here: the spawn fails
with `OSError`), `sudo_run` propagates the exception without executing the
line that clears the elevation prefix — afterwards the prefix is still
`"/usr/bin/sudo -u root"`, not empty as the claim requires. -/
theorem sudo_run_prefix_leak :
    (sudo_run "root" true (some "/usr/bin/sudo")
        { spawn_ok := false, chunks := [], poll_final := Option.none,
          stderr_read := Option.none } sample).1 = .error .osError ∧
    ((sudo_run "root" true (some "/usr/bin/sudo")
        { spawn_ok := false, chunks := [], poll_final := Option.none,
          stderr_read := Option.none } sample).2.1).sudo_run
      = "/usr/bin/sudo -u root" := by
  constructor
  · rfl
  · decide

/-- Claim C8 (amended): `sudo_run(user)` prefixes the command line with
the elevation invocation and delegates to `run()`; the prefix is cleared
when `run()` returns normally — including a FAILED non-zero exit, which
returns normally — but when `run()` raises, the exception propagates and
the prefix remains set for subsequent invocations. -/
theorem sudo_run_clears_on_return (run_as sp u : String)
    (env : RunEnv) (p : NmapProcess)
    (hu : (pySplitWs run_as).getLast? = some u) :
    (∀ rc, (sudo_run run_as true (some sp) env p).1 = .ok rc →
      (sudo_run run_as true (some sp) env p).2.1.sudo_run = "") ∧
    (∀ e, (sudo_run run_as true (some sp) env p).1 = .error e →
      (sudo_run run_as true (some sp) env p).2.1.sudo_run = sp ++ " -u " ++ u) := by
  have hpre := run_sudo_run env { p with sudo_run := sp ++ " -u " ++ u }
  unfold sudo_run
  rw [hu]
  simp only [Bool.not_true, if_false]
  rcases hrun : run env { p with sudo_run := sp ++ " -u " ++ u } with ⟨res, p2, tr⟩
  rw [hrun] at hpre
  cases res with
  | ok rc => exact ⟨fun _ _ => rfl, fun e he => by simp at he⟩
  | error e =>
    refine ⟨fun rc hrc => by simp at hrc, fun e2 he2 => ?_⟩
    simpa using hpre

theorem sudo_run_clears_on_return_witness :
    (sudo_run "root" true (some "/usr/bin/sudo")
        { spawn_ok := true, chunks := [], poll_final := some 0,
          stderr_read := Option.none } sample).2.1.sudo_run = "" ∧
    (sudo_run "root" true (some "/usr/bin/sudo")
        { spawn_ok := false, chunks := [], poll_final := Option.none,
          stderr_read := Option.none } sample).2.1.sudo_run
      = "/usr/bin/sudo" ++ " -u " ++ "root" :=
  ⟨(sudo_run_clears_on_return "root" "/usr/bin/sudo" "root" _ sample rfl).1
      (some 0) rfl,
   (sudo_run_clears_on_return "root" "/usr/bin/sudo" "root" _ sample rfl).2
      .osError rfl⟩

/-- Claim C9 counterexample: the empty Python list passes the
`isinstance(targets, list)` branch, so construction succeeds with an
EMPTY target list — the non-emptiness invariant does not hold after every
successful construction. -/
theorem init_empty_list_targets :
    ((init (.list []) "-sT" .none true (some "/usr/bin/nmap")).toOption.map
      (fun q => q.nmap_targets)) = some [] := by
  decide

/-- Claim C9 (amended): construction validates the target input shape: a
string input is split into a necessarily non-empty ordered sequence
(Python `split(',')` never returns an empty list), a list input is
accepted exactly as given — so a target list constructed from a list
argument may be empty — and any other input shape fails with an error. -/
theorem init_targets_validation (input : TargetsArg) (options : String)
    (cb : EventCallbackArg) (sm : Bool) (path : Option String) :
    (∀ p, init input options cb sm path = .ok p →
      (∀ s, input = .str s →
        p.nmap_targets = pySplitComma (pyReplaceSpace s) ∧ p.nmap_targets ≠ []) ∧
      (∀ l, input = .list l → p.nmap_targets = l)) ∧
    (input = .other → ∀ bp, path = some bp →
      init input options cb sm path =
        .error (.exception "Supplied target list should be either a string of a list")) := by
  constructor
  · intro p h
    obtain ⟨_, _, _, _, hstr, hlist, _⟩ :=
      init_ok_inversion input options cb sm path p h
    refine ⟨fun s hsv => ⟨hstr s hsv, ?_⟩, hlist⟩
    rw [hstr s hsv]
    exact pySplitComma_ne_nil _
  · rintro rfl bp rfl
    rfl

theorem init_targets_validation_witness :
    (sample2.nmap_targets = pySplitComma (pyReplaceSpace "a, b") ∧
      sample2.nmap_targets ≠ []) ∧
    init .other "-sT" .none true (some "/usr/bin/nmap") =
      .error (.exception "Supplied target list should be either a string of a list") :=
  ⟨((init_targets_validation (.str "a, b") "-sT" .none true
      (some "/usr/bin/nmap")).1 sample2 rfl).1 "a, b" rfl,
   (init_targets_validation .other "-sT" .none true
      (some "/usr/bin/nmap")).2 rfl "/usr/bin/nmap" rfl⟩

/-- Claim C10: a non-null but non-callable `event_callback` argument is
silently discarded: construction behaves exactly as if no callback had
been passed (same result, no error raised for the callback), the stored
callback slot is absent, and the observer is invoked on no chunk of the
consumption loop of any run. -/
theorem init_noncallable_callback (targets : TargetsArg) (options : String)
    (sm : Bool) (path : Option String) :
    init targets options .notCallable sm path =
      init targets options .none sm path ∧
    (∀ p, init targets options .notCallable sm path = .ok p →
      p.nmap_event_callback = false ∧
      (∀ chunks, (wait_loop chunks p).2 = []) ∧
      (∀ env : RunEnv, (run env p).2.2 = [])) := by
  refine ⟨rfl, ?_⟩
  intro p h
  obtain ⟨_, _, _, hcb, _, _, _⟩ :=
    init_ok_inversion targets options .notCallable sm path p h
  have hcb0 : p.nmap_event_callback = false := hcb
  refine ⟨hcb0, fun chunks => wait_loop_trace_none chunks p hcb0, ?_⟩
  rintro ⟨sp, cs, poll, serr⟩
  cases sp
  · rfl
  · simp only [run, if_true, wait_trace]
    exact wait_loop_trace_none _ _ (by simpa [run_init] using hcb0)

theorem init_noncallable_callback_witness :
    init (.str "a, b") "-sT" .notCallable true (some "/usr/bin/nmap") =
      init (.str "a, b") "-sT" .none true (some "/usr/bin/nmap") ∧
    sample2.nmap_event_callback = false ∧
    (wait_loop [chunk_progress] sample2).2 = [] ∧
    (run { spawn_ok := true, chunks := [chunk_progress], poll_final := some 0,
           stderr_read := Option.none } sample2).2.2 = [] :=
  have H := init_noncallable_callback (.str "a, b") "-sT" true (some "/usr/bin/nmap")
  ⟨H.1, (H.2 sample2 rfl).1, (H.2 sample2 rfl).2.1 [chunk_progress],
    (H.2 sample2 rfl).2.2 _⟩

end Libnmap
